import Mathlib

/-!
Shallow embedding of the xiangxinai Python SDK (files `client.py`,
`models.py`, `exceptions.py`) used to check the natural-language
specification of the package against the source.

Conventions of the embedding:
* Python strings are Lean `String`s; `str.strip()` is `pyStrip` over the
  ASCII whitespace characters the SDK's inputs use.
* Python `float` payload fields carry no arithmetic in the SDK, so they are
  represented as `Rat` values.
* Fallible Python code is embedded as `Except`-valued functions; the SDK's
  exception classes become constructors of `PyFailure`.
* HTTP traffic is abstracted by an oracle `outcomes : Nat → HttpOutcome`
  giving the result of each attempt, and by oracles for URL fetches and
  local file reads in the image paths.  A function that returns a payload
  value has not performed the network request itself: producing a
  `request`/payload value is "about to call the transport", while the safe
  short-circuit paths return a `safe` value instead.
-/

/-- Whitespace recognized by Python `str.strip()` on the ASCII inputs the SDK
handles: space, tab, newline, carriage return, vertical tab, form feed. -/
def isPySpace (c : Char) : Bool :=
  c = ' ' || c = '\t' || c = '\n' || c = '\r' || c = '\x0b' || c = '\x0c'

/-- Python `s.strip()`: drop leading and trailing whitespace. -/
def pyStrip (s : String) : String :=
  String.mk (((s.data.dropWhile isPySpace).reverse.dropWhile isPySpace).reverse)

/-- models.py `ComplianceResult`. -/
structure ComplianceResult where
  risk_level : String
  categories : List String
  deriving DecidableEq, Repr

/-- models.py `SecurityResult`. -/
structure SecurityResult where
  risk_level : String
  categories : List String
  deriving DecidableEq, Repr

/-- models.py `DataSecurityResult`. -/
structure DataSecurityResult where
  risk_level : String
  categories : List String
  deriving DecidableEq, Repr

/-- models.py `GuardrailResult`: compliance and security are required, the
data-security dimension is optional. -/
structure GuardrailResult where
  compliance : ComplianceResult
  security : SecurityResult
  data : Option DataSecurityResult
  deriving DecidableEq, Repr

/-- models.py `GuardrailResponse` (the `score` float is represented as a
rational; the SDK never computes with it). -/
structure GuardrailResponse where
  id : String
  result : GuardrailResult
  overall_risk_level : String
  suggest_action : String
  suggest_answer : Option String
  score : Option Rat
  deriving DecidableEq, Repr

/-- Sync `XiangxinAI._create_safe_response` (client.py:61-83) as evidently
intended.  NOTE: the source text of this method is not valid Python — the
comma between the `security=SecurityResult(...)` and
`data=DataSecurityResult(...)` arguments is missing, and `DataSecurityResult`
is never imported into client.py, so importing the module raises a
`SyntaxError`; this value records the construction the code spells out. -/
def create_safe_response : GuardrailResponse :=
  { id := "guardrails-safe-default"
    result :=
      { compliance := { risk_level := "no_risk", categories := [] }
        security := { risk_level := "no_risk", categories := [] }
        data := some { risk_level := "no_risk", categories := [] } }
    overall_risk_level := "no_risk"
    suggest_action := "pass"
    suggest_answer := none
    score := some 1 }

/-- Async `AsyncXiangxinAI._create_safe_response` (client.py:608-625): no
data-security dimension and no score. -/
def async_create_safe_response : GuardrailResponse :=
  { id := "guardrails-safe-default"
    result :=
      { compliance := { risk_level := "no_risk", categories := [] }
        security := { risk_level := "no_risk", categories := [] }
        data := none }
    overall_risk_level := "no_risk"
    suggest_action := "pass"
    suggest_answer := none
    score := none }

/-- Python truthiness filter for an optional string argument (`if user_id:`):
`None` and the empty string are falsy. -/
def optTruthy (u : Option String) : Option String :=
  match u with
  | some s => if s = "" then none else some s
  | none => none

/-- Body of a POST to `/guardrails/input` (client.py:131-136). -/
structure InputPayload where
  input : String
  xxai_app_user_id : Option String
  deriving DecidableEq, Repr

/-- What a single-text check does before any transport work: either the local
safe short-circuit (no network call) or a request about to be sent. -/
inductive PromptOutcome
  | safe (r : GuardrailResponse)
  | request (endpoint : String) (payload : InputPayload)
  deriving DecidableEq, Repr

/-- `AsyncXiangxinAI.check_prompt` (client.py:627-662) up to the transport:
empty or whitespace-only content short-circuits to the safe default. -/
def async_check_prompt (content : String) (user_id : Option String) :
    PromptOutcome :=
  if content = "" ∨ pyStrip content = "" then .safe async_create_safe_response
  else .request "/guardrails/input"
    { input := pyStrip content, xxai_app_user_id := optTruthy user_id }

/-- `XiangxinAI.check_prompt` (client.py:85-138) up to the transport; its safe
short-circuit names the (syntactically broken) sync `_create_safe_response`,
embedded here by its evident intent. -/
def check_prompt (content : String) (user_id : Option String) :
    PromptOutcome :=
  if content = "" ∨ pyStrip content = "" then .safe create_safe_response
  else .request "/guardrails/input"
    { input := pyStrip content, xxai_app_user_id := optTruthy user_id }

deriving instance DecidableEq for Except

/-- Exception taxonomy seen by SDK callers, as far as the claims need it:
the SDK's own `ValidationError` and base `XiangxinAIError`
(exceptions.py:6-23) plus pydantic model-validation errors, which are raised
by `Message(...)` construction and are not SDK exception subclasses. -/
inductive PyFailure
  | validationFailure (msg : String)
  | pydanticFailure (msg : String)
  | sdkFailure (msg : String)
  deriving DecidableEq, Repr

/-- models.py `Message` after successful pydantic validation. -/
structure Message where
  role : String
  content : String
  deriving DecidableEq, Repr

/-- Constructing `Message(role=..., content=...)` (models.py:8-24): the role
validator requires one of the three enumerated roles; the content validator
rejects non-empty content longer than 1000000 characters and strips the
stored content. -/
def Message.construct (role content : String) : Except PyFailure Message :=
  if role = "user" ∨ role = "system" ∨ role = "assistant" then
    if content ≠ "" ∧ content.length > 1000000 then
      .error (.pydanticFailure "content too long (max 1000000 characters)")
    else
      .ok { role := role, content := if content = "" then content else pyStrip content }
  else .error (.pydanticFailure "role must be one of: user, system, assistant")

/-- One raw element of the `messages` list handed to `check_conversation`:
whether it is a dict, which of the two required keys it has, and the values
found under them (consulted only when present, as in the source). -/
structure RawEntry where
  is_mapping : Bool
  has_role : Bool
  has_content : Bool
  role : String
  content : String
  deriving DecidableEq, Repr

/-- The shape test of client.py:195: `isinstance(msg, dict)` and both keys
present. -/
def entryShapeOk (e : RawEntry) : Bool :=
  e.is_mapping && e.has_role && e.has_content

/-- The validation loop of `check_conversation` (client.py:191-203): left to
right, raise on the first malformed entry, construct a `Message` for each
entry with non-whitespace content, and track whether every content was
empty. -/
def processEntries : List RawEntry → Except PyFailure (List Message × Bool)
  | [] => .ok ([], true)
  | e :: rest =>
    if entryShapeOk e = false then
      .error (.validationFailure "Each message must have \x27role\x27 and \x27content\x27 fields")
    else if e.content ≠ "" ∧ pyStrip e.content ≠ "" then
      match Message.construct e.role e.content with
      | .error err => .error err
      | .ok m =>
        match processEntries rest with
        | .error err => .error err
        | .ok (ms, _) => .ok (m :: ms, false)
    else
      match processEntries rest with
      | .error err => .error err
      | .ok (ms, ae) => .ok (ms, ae)

/-- Final request dict POSTed to `/guardrails` (client.py:213-224): the
`GuardrailRequest` fields plus the optional
`extra_body["xxai_app_user_id"]` side channel. -/
structure GuardrailPayload where
  model : String
  messages : List Message
  extra_body_user_id : Option String
  deriving DecidableEq, Repr

/-- Result of `check_conversation` up to the transport. -/
inductive ConvOutcome
  | safe (r : GuardrailResponse)
  | request (endpoint : String) (payload : GuardrailPayload)
  deriving DecidableEq, Repr

/-- `XiangxinAI.check_conversation` (client.py:140-224) up to the transport
(the async variant, client.py:664-729, is textually identical). -/
def check_conversation (messages : List RawEntry) (model : String)
    (user_id : Option String) : Except PyFailure ConvOutcome :=
  if messages = [] then .error (.validationFailure "Messages cannot be empty")
  else
    match processEntries messages with
    | .error err => .error err
    | .ok (validated, allEmpty) =>
      if allEmpty then .ok (.safe create_safe_response)
      else if validated = [] then .ok (.safe create_safe_response)
      else .ok (.request "/guardrails"
        { model := model, messages := validated,
          extra_body_user_id := optTruthy user_id })

/-- The messages a well-formed conversation forwards: exactly the entries
with non-whitespace content, in order, with stripped content. -/
def forwardedMessages (entries : List RawEntry) : List Message :=
  (entries.filter (fun e => pyStrip e.content ≠ "")).map
    (fun e => { role := e.role, content := pyStrip e.content })

/-- A conversation entry the validation loop passes over without raising:
well-shaped, and when its content is non-whitespace, its role is one of the
three enumerated values and its content is within the length bound. -/
def entryOk (e : RawEntry) : Prop :=
  entryShapeOk e = true ∧
    (pyStrip e.content ≠ "" →
      ((e.role = "user" ∨ e.role = "system" ∨ e.role = "assistant") ∧
        e.content.length ≤ 1000000))

instance (e : RawEntry) : Decidable (entryOk e) := by
  unfold entryOk; infer_instance

/-- Outcome of issuing one HTTP attempt: a response with some status code,
or one of the exception families the two retry loops distinguish. -/
inductive HttpOutcome
  | status (code : Nat)
  | timeoutExc
  | connectionExc
  | otherExc
  deriving DecidableEq, Repr

/-- How a `_make_request` call ends. -/
inductive EngineResult
  | success
  | authError
  | validationFailure
  | rateLimitFailure
  | timeoutFailure
  | connectionFailure
  | unexpectedFailure
  deriving DecidableEq, Repr

/-- Observable trace of one `_make_request` call: the sleeps performed in
order (seconds), the number of attempts issued, and the final outcome. -/
structure EngineTrace where
  sleeps : List Nat
  attempts : Nat
  outcome : EngineResult
  deriving DecidableEq, Repr

/-- Sync retry loop `XiangxinAI._make_request` (client.py:480-546), run from
attempt index `a` with `left = max_retries - a` retries remaining.  HTTP 200
returns, 401/422 raise non-retryable failures, 429 sleeps `2^a + 1` seconds
and retries while budget remains; any other status raises `XiangxinAIError`
inside the `try`, which the final `except Exception` handler retries after a
1-second sleep, as it does timeouts, connection errors and unexpected
exceptions (each with its own terminal failure). -/
def syncGo (outcomes : Nat → HttpOutcome) : Nat → Nat → EngineTrace
  | a, left =>
    match outcomes a with
    | .status c =>
      if c = 200 then ⟨[], 1, .success⟩
      else if c = 401 then ⟨[], 1, .authError⟩
      else if c = 422 then ⟨[], 1, .validationFailure⟩
      else if c = 429 then
        match left with
        | 0 => ⟨[], 1, .rateLimitFailure⟩
        | left' + 1 =>
          let t := syncGo outcomes (a + 1) left'
          ⟨(2 ^ a + 1) :: t.sleeps, t.attempts + 1, t.outcome⟩
      else
        match left with
        | 0 => ⟨[], 1, .unexpectedFailure⟩
        | left' + 1 =>
          let t := syncGo outcomes (a + 1) left'
          ⟨1 :: t.sleeps, t.attempts + 1, t.outcome⟩
    | .timeoutExc =>
      match left with
      | 0 => ⟨[], 1, .timeoutFailure⟩
      | left' + 1 =>
        let t := syncGo outcomes (a + 1) left'
        ⟨1 :: t.sleeps, t.attempts + 1, t.outcome⟩
    | .connectionExc =>
      match left with
      | 0 => ⟨[], 1, .connectionFailure⟩
      | left' + 1 =>
        let t := syncGo outcomes (a + 1) left'
        ⟨1 :: t.sleeps, t.attempts + 1, t.outcome⟩
    | .otherExc =>
      match left with
      | 0 => ⟨[], 1, .unexpectedFailure⟩
      | left' + 1 =>
        let t := syncGo outcomes (a + 1) left'
        ⟨1 :: t.sleeps, t.attempts + 1, t.outcome⟩

/-- Async retry loop `AsyncXiangxinAI._make_request` with `_handle_response`
(client.py:939-1033): identical to the sync loop except on HTTP 429, where
`_handle_response` sleeps `(2 ** 0) + 1 = 2` seconds and then raises
`RateLimitError`, which `_make_request` re-raises without retrying. -/
def asyncGo (outcomes : Nat → HttpOutcome) : Nat → Nat → EngineTrace
  | a, left =>
    match outcomes a with
    | .status c =>
      if c = 200 then ⟨[], 1, .success⟩
      else if c = 401 then ⟨[], 1, .authError⟩
      else if c = 422 then ⟨[], 1, .validationFailure⟩
      else if c = 429 then ⟨[2], 1, .rateLimitFailure⟩
      else
        match left with
        | 0 => ⟨[], 1, .unexpectedFailure⟩
        | left' + 1 =>
          let t := asyncGo outcomes (a + 1) left'
          ⟨1 :: t.sleeps, t.attempts + 1, t.outcome⟩
    | .timeoutExc =>
      match left with
      | 0 => ⟨[], 1, .timeoutFailure⟩
      | left' + 1 =>
        let t := asyncGo outcomes (a + 1) left'
        ⟨1 :: t.sleeps, t.attempts + 1, t.outcome⟩
    | .connectionExc =>
      match left with
      | 0 => ⟨[], 1, .connectionFailure⟩
      | left' + 1 =>
        let t := asyncGo outcomes (a + 1) left'
        ⟨1 :: t.sleeps, t.attempts + 1, t.outcome⟩
    | .otherExc =>
      match left with
      | 0 => ⟨[], 1, .unexpectedFailure⟩
      | left' + 1 =>
        let t := asyncGo outcomes (a + 1) left'
        ⟨1 :: t.sleeps, t.attempts + 1, t.outcome⟩

/-- `XiangxinAI._make_request` over an outcome oracle: attempts 0 through
`max_retries` inclusive. -/
def sync_make_request (max_retries : Nat) (outcomes : Nat → HttpOutcome) :
    EngineTrace :=
  syncGo outcomes 0 max_retries

/-- `AsyncXiangxinAI._make_request` over an outcome oracle. -/
def async_make_request (max_retries : Nat) (outcomes : Nat → HttpOutcome) :
    EngineTrace :=
  asyncGo outcomes 0 max_retries

/-- Character `i` of the standard base64 alphabet, as produced by Python
`base64.b64encode`. -/
def b64Char (i : Nat) : Char :=
  if i < 26 then Char.ofNat (65 + i)
  else if i < 52 then Char.ofNat (97 + (i - 26))
  else if i < 62 then Char.ofNat (48 + (i - 52))
  else if i = 62 then '+'
  else '/'

/-- Inverse of the base64 alphabet (used to state the round-trip property;
the SDK itself never decodes). -/
def b64Val (c : Char) : Option Nat :=
  if 65 ≤ c.toNat ∧ c.toNat ≤ 90 then some (c.toNat - 65)
  else if 97 ≤ c.toNat ∧ c.toNat ≤ 122 then some (c.toNat - 97 + 26)
  else if 48 ≤ c.toNat ∧ c.toNat ≤ 57 then some (c.toNat - 48 + 52)
  else if c = '+' then some 62
  else if c = '/' then some 63
  else none

/-- Standard base64 encoding of a byte list, three bytes to four characters
with `=` padding — the character stream of Python
`base64.b64encode(bs).decode(\x27utf-8\x27)`. -/
def b64EncodeChunks : List Nat → List Char
  | [] => []
  | [a] => [b64Char (a / 4), b64Char (a % 4 * 16), '=', '=']
  | [a, b] =>
    [b64Char (a / 4), b64Char (a % 4 * 16 + b / 16), b64Char (b % 16 * 4), '=']
  | a :: b :: c :: rest =>
    b64Char (a / 4) :: b64Char (a % 4 * 16 + b / 16) ::
      b64Char (b % 16 * 4 + c / 64) :: b64Char (c % 64) :: b64EncodeChunks rest

/-- Python `base64.b64encode(bytes(bs)).decode(\x27utf-8\x27)`. -/
def b64encode (bs : List Nat) : String :=
  String.mk (b64EncodeChunks bs)

/-- Standard base64 decoding, the mathematical inverse used to state the
round-trip claim: four characters to three bytes, with the two padded final
chunk forms. -/
def b64DecodeChunks : List Char → Option (List Nat)
  | c1 :: c2 :: c3 :: c4 :: rest =>
    if c3 = '=' then
      if c4 = '=' ∧ rest = [] then
        match b64Val c1, b64Val c2 with
        | some v1, some v2 => some [v1 * 4 + v2 / 16]
        | _, _ => none
      else none
    else if c4 = '=' then
      if rest = [] then
        match b64Val c1, b64Val c2, b64Val c3 with
        | some v1, some v2, some v3 =>
          some [v1 * 4 + v2 / 16, v2 % 16 * 16 + v3 / 4]
        | _, _, _ => none
      else none
    else
      match b64Val c1, b64Val c2, b64Val c3, b64Val c4, b64DecodeChunks rest with
      | some v1, some v2, some v3, some v4, some tl =>
        some ((v1 * 4 + v2 / 16) :: (v2 % 16 * 16 + v3 / 4) :: (v3 % 4 * 64 + v4) :: tl)
      | _, _, _, _, _ => none
  | [] => some []
  | _ => none

/-- The inline data URI wrapper of client.py:356-359: a fixed
`data:image/jpeg;base64,` label regardless of the actual source image
format. -/
def imageUrlString (b64 : String) : String :=
  "data:image/jpeg;base64," ++ b64

/-- The full media-encoder output for a byte sequence: fetched or read bytes,
base64-encoded (client.py:289-306) and wrapped as an inline JPEG data URI. -/
def image_data_uri (bs : List Nat) : String :=
  imageUrlString (b64encode bs)

/-- Result of reading a local file (`open(path, \x27rb\x27)`): bytes, a
`FileNotFoundError`, or another `OSError`-like exception with message. -/
inductive FileReadResult
  | bytes (bs : List Nat)
  | notFound
  | otherFailure (msg : String)

/-- Result of fetching a URL through the session (`requests` raises a single
exception family on connection errors and non-2xx via
`raise_for_status`). -/
inductive UrlFetchResult
  | bytes (bs : List Nat)
  | fetchFailure (msg : String)

/-- Character-list prefix test (Python `str.startswith`). -/
def charsPrefix : List Char → List Char → Bool
  | [], _ => true
  | _ :: _, [] => false
  | a :: pre, b :: rest => a = b && charsPrefix pre rest

/-- The URL test of client.py:298: `image_path.startswith((\x27http://\x27,
\x27https://\x27))`. -/
def isHttpUrl (path : String) : Bool :=
  charsPrefix "http://".data path.data || charsPrefix "https://".data path.data

/-- Exceptions escaping `_encode_base64_from_path`. -/
inductive EncodeExc
  | notFoundExc
  | otherEncodeExc (msg : String)

/-- `XiangxinAI._encode_base64_from_path` (client.py:289-306) over fetch and
read oracles: URL references are fetched through the transport, everything
else is read as a local file. -/
def encode_base64_from_path (fetch : String → UrlFetchResult)
    (readf : String → FileReadResult) (path : String) :
    Except EncodeExc String :=
  if isHttpUrl path then
    match fetch path with
    | .bytes bs => .ok (b64encode bs)
    | .fetchFailure m => .error (.otherEncodeExc m)
  else
    match readf path with
    | .bytes bs => .ok (b64encode bs)
    | .notFound => .error .notFoundExc
    | .otherFailure m => .error (.otherEncodeExc m)

/-- One element of a multimodal message's content list. -/
inductive ContentPart
  | text (t : String)
  | image_url (url : String)
  deriving DecidableEq, Repr

/-- The user message of an image check. -/
structure VLMessage where
  role : String
  content : List ContentPart
  deriving DecidableEq, Repr

/-- Request dict POSTed to `/guardrails` by the image checks. -/
structure VLPayload where
  model : String
  messages : List VLMessage
  extra_body_user_id : Option String
  deriving DecidableEq, Repr

/-- The optional leading text part (client.py:353-355): present exactly when
the prompt has non-whitespace content. -/
def promptParts (prompt : String) : List ContentPart :=
  if prompt ≠ "" ∧ pyStrip prompt ≠ "" then [.text (pyStrip prompt)] else []

/-- `XiangxinAI.check_prompt_image` (client.py:308-374) up to the transport:
empty image reference fails validation before touching any oracle, a missing
local file becomes a `ValidationError` naming the path, any other encoding
failure becomes a generic `XiangxinAIError`; on success a single user
message is built and the optional user id rides in `extra_body`. -/
def check_prompt_image (fetch : String → UrlFetchResult)
    (readf : String → FileReadResult) (prompt image model : String)
    (user_id : Option String) : Except PyFailure VLPayload :=
  if image = "" then .error (.validationFailure "Image path cannot be empty")
  else
    match encode_base64_from_path fetch readf image with
    | .error .notFoundExc =>
      .error (.validationFailure ("Image file not found: " ++ image))
    | .error (.otherEncodeExc m) =>
      .error (.sdkFailure ("Failed to encode image: " ++ m))
    | .ok b64 =>
      .ok { model := model
            messages := [{ role := "user",
                           content := promptParts prompt ++ [.image_url (imageUrlString b64)] }]
            extra_body_user_id := optTruthy user_id }

/-- The encoding loop of `check_prompt_images` (client.py:416-426): encode
each image in input order, turning a missing file into a `ValidationError`
naming the path and any other failure into a generic `XiangxinAIError`
naming the path. -/
def encodeImages (fetch : String → UrlFetchResult)
    (readf : String → FileReadResult) : List String →
    Except PyFailure (List ContentPart)
  | [] => .ok []
  | p :: rest =>
    match encode_base64_from_path fetch readf p with
    | .error .notFoundExc =>
      .error (.validationFailure ("Image file not found: " ++ p))
    | .error (.otherEncodeExc m) =>
      .error (.sdkFailure ("Failed to encode image " ++ p ++ ": " ++ m))
    | .ok b64 =>
      match encodeImages fetch readf rest with
      | .error err => .error err
      | .ok parts => .ok (.image_url (imageUrlString b64) :: parts)

/-- `XiangxinAI.check_prompt_images` (client.py:376-441) up to the
transport. -/
def check_prompt_images (fetch : String → UrlFetchResult)
    (readf : String → FileReadResult) (prompt : String) (images : List String)
    (model : String) (user_id : Option String) : Except PyFailure VLPayload :=
  if images = [] then .error (.validationFailure "Images list cannot be empty")
  else
    match encodeImages fetch readf images with
    | .error err => .error err
    | .ok parts =>
      .ok { model := model
            messages := [{ role := "user", content := promptParts prompt ++ parts }]
            extra_body_user_id := optTruthy user_id }

/-- `AsyncXiangxinAI.check_prompt_image` (client.py:797-854) up to the
transport: same construction as the sync variant, except that the method
accepts `user_id` and then sends `request_data.dict()` unchanged
(client.py:854), so the identifier is never attached. -/
def async_check_prompt_image (fetch : String → UrlFetchResult)
    (readf : String → FileReadResult) (prompt image model : String)
    (_user_id : Option String) : Except PyFailure VLPayload :=
  if image = "" then .error (.validationFailure "Image path cannot be empty")
  else
    match encode_base64_from_path fetch readf image with
    | .error .notFoundExc =>
      .error (.validationFailure ("Image file not found: " ++ image))
    | .error (.otherEncodeExc m) =>
      .error (.sdkFailure ("Failed to encode image: " ++ m))
    | .ok b64 =>
      .ok { model := model
            messages := [{ role := "user",
                           content := promptParts prompt ++ [.image_url (imageUrlString b64)] }]
            extra_body_user_id := none }

/-- `AsyncXiangxinAI.check_prompt_images` (client.py:856-921) up to the
transport: textually identical to the sync variant, including the
`extra_body` user-id attachment (client.py:915-921). -/
def async_check_prompt_images (fetch : String → UrlFetchResult)
    (readf : String → FileReadResult) (prompt : String) (images : List String)
    (model : String) (user_id : Option String) : Except PyFailure VLPayload :=
  check_prompt_images fetch readf prompt images model user_id

/-- models.py `GuardrailResponse.is_safe`. -/
def is_safe (r : GuardrailResponse) : Bool :=
  r.suggest_action == "pass"

/-- models.py `GuardrailResponse.is_blocked`. -/
def is_blocked (r : GuardrailResponse) : Bool :=
  r.suggest_action == "reject"

/-- models.py `GuardrailResponse.has_substitute` (models.py:83-86): replace
or reject, independent of `suggest_answer`. -/
def has_substitute (r : GuardrailResponse) : Bool :=
  r.suggest_action == "replace" || r.suggest_action == "reject"

/-- The categories of the optional data-security dimension, `[]` when the
dimension is absent (`if self.result.data:` — `None` is falsy, any model
instance is truthy). -/
def dataCategories (r : GuardrailResponse) : List String :=
  match r.result.data with
  | some d => d.categories
  | none => []

/-- models.py `GuardrailResponse.all_categories` (models.py:89-97): extend
with compliance, security and optional data categories, then
`list(set(...))`.  A Python set iterates in unspecified order, so the
deduplicated list is embedded as `List.dedup`; the claims about it are
stated by membership and duplicate-freeness. -/
def all_categories (r : GuardrailResponse) : List String :=
  (r.result.compliance.categories ++ r.result.security.categories ++
    dataCategories r).dedup

/-- Python `all_empty` flag over a list of entries: every content strips to
the empty string. -/
def entriesAllWhite (l : List RawEntry) : Bool :=
  l.all (fun e => pyStrip e.content = "")

/-- Outcome oracle separating the two transports: 429 on the first attempt,
200 afterwards. -/
def c2outcomes : Nat → HttpOutcome :=
  fun k => if k = 0 then .status 429 else .status 200

/-- Concrete fetch oracle for the image-check evaluations. -/
def c6fetch : String → UrlFetchResult := fun _ => .bytes [9, 8, 7]

/-- Concrete file oracle for the image-check evaluations. -/
def c6read : String → FileReadResult := fun _ => .bytes [1, 2, 3]

/-- A response whose action is reject and whose suggested answer is null. -/
def c10_reject_response : GuardrailResponse :=
  { id := "guardrails-2"
    result :=
      { compliance := { risk_level := "high_risk", categories := ["violent crime"] }
        security := { risk_level := "no_risk", categories := [] }
        data := none }
    overall_risk_level := "high_risk"
    suggest_action := "reject"
    suggest_answer := none
    score := none }

theorem pyStrip_empty : pyStrip "" = "" := rfl

theorem b64Val_b64Char : ∀ i, i < 64 → b64Val (b64Char i) = some i := by decide

theorem b64Char_ne_pad : ∀ i, i < 64 → b64Char i ≠ '=' := by decide

theorem b64_roundtrip :
    ∀ bs : List Nat, (∀ x ∈ bs, x < 256) →
      b64DecodeChunks (b64EncodeChunks bs) = some bs := by
  intro bs
  induction bs using b64EncodeChunks.induct with
  | case1 => intro _; rfl
  | case2 a =>
    intro h
    have ha : a < 256 := h a (by simp)
    have h1 : a / 4 < 64 := by omega
    have h2 : a % 4 * 16 < 64 := by omega
    simp only [b64EncodeChunks, b64DecodeChunks,
      b64Val_b64Char _ h1, b64Val_b64Char _ h2]
    simp
    omega
  | case3 a b =>
    intro h
    have ha : a < 256 := h a (by simp)
    have hb : b < 256 := h b (by simp)
    have h1 : a / 4 < 64 := by omega
    have h2 : a % 4 * 16 + b / 16 < 64 := by omega
    have h3 : b % 16 * 4 < 64 := by omega
    simp only [b64EncodeChunks, b64DecodeChunks]
    simp [b64Char_ne_pad _ h3,
      b64Val_b64Char _ h1, b64Val_b64Char _ h2, b64Val_b64Char _ h3]
    omega
  | case4 a b c rest ih =>
    intro h
    have ha : a < 256 := h a (by simp)
    have hb : b < 256 := h b (by simp)
    have hc : c < 256 := h c (by simp)
    have hrest : ∀ x ∈ rest, x < 256 := fun x hx => h x (by simp [hx])
    have h1 : a / 4 < 64 := by omega
    have h2 : a % 4 * 16 + b / 16 < 64 := by omega
    have h3 : b % 16 * 4 + c / 64 < 64 := by omega
    have h4 : c % 64 < 64 := by omega
    simp only [b64EncodeChunks, b64DecodeChunks]
    simp [b64Char_ne_pad _ h3, b64Char_ne_pad _ h4,
      b64Val_b64Char _ h1, b64Val_b64Char _ h2, b64Val_b64Char _ h3, b64Val_b64Char _ h4,
      ih hrest]
    omega

theorem range_pow_shift (a n : Nat) :
    (List.range (n + 1)).map (fun i => 2 ^ (a + i) + 1) =
      (2 ^ a + 1) :: (List.range n).map (fun i => 2 ^ (a + 1 + i) + 1) := by
  rw [List.range_succ_eq_map, List.map_cons, List.map_map]
  refine congrArg₂ List.cons (by simp) ?_
  refine List.map_congr_left fun i _ => ?_
  simp only [Function.comp_apply]
  have hexp : a + (i + 1) = a + 1 + i := by omega
  rw [Nat.succ_eq_add_one, hexp]

theorem syncGo_all429 (outcomes : Nat → HttpOutcome)
    (h : ∀ k, outcomes k = .status 429) :
    ∀ left a, syncGo outcomes a left =
      ⟨(List.range left).map (fun i => 2 ^ (a + i) + 1), left + 1,
        .rateLimitFailure⟩ := by
  intro left
  induction left with
  | zero => intro a; simp [syncGo, h a]
  | succ n ih =>
    intro a
    rw [range_pow_shift]
    simp [syncGo, h a, ih (a + 1)]

theorem syncGo_first200 (outcomes : Nat → HttpOutcome) :
    ∀ j left a, j ≤ left →
      (∀ k, k < j → outcomes (a + k) = .status 429) →
      outcomes (a + j) = .status 200 →
      syncGo outcomes a left =
        ⟨(List.range j).map (fun i => 2 ^ (a + i) + 1), j + 1, .success⟩ := by
  intro j
  induction j with
  | zero =>
    intro left a _ _ h200
    have h0 : outcomes a = .status 200 := by simpa using h200
    cases left <;> simp [syncGo, h0]
  | succ n ih =>
    intro left a hle h429 h200
    have h0 : outcomes a = .status 429 := by simpa using h429 0 (by omega)
    cases left with
    | zero => omega
    | succ l =>
      have hrec := ih l (a + 1) (by omega)
        (fun k hk => by
          have := h429 (k + 1) (by omega)
          rwa [show a + (k + 1) = a + 1 + k from by omega] at this)
        (by rwa [show a + (n + 1) = a + 1 + n from by omega] at h200)
      rw [range_pow_shift]
      simp [syncGo, h0, hrec]

theorem asyncGo_429 (outcomes : Nat → HttpOutcome) (a left : Nat)
    (h : outcomes a = .status 429) :
    asyncGo outcomes a left = ⟨[2], 1, .rateLimitFailure⟩ := by
  cases left <;> simp [asyncGo, h]

theorem syncGo_eq_asyncGo (outcomes : Nat → HttpOutcome)
    (h : ∀ k, outcomes k ≠ .status 429) :
    ∀ left a, syncGo outcomes a left = asyncGo outcomes a left := by
  intro left
  induction left with
  | zero =>
    intro a
    cases ho : outcomes a with
    | status c =>
      have hc : c ≠ 429 := fun hc => h a (by rw [ho, hc])
      simp [syncGo, asyncGo, ho, hc]
    | timeoutExc => simp [syncGo, asyncGo, ho]
    | connectionExc => simp [syncGo, asyncGo, ho]
    | otherExc => simp [syncGo, asyncGo, ho]
  | succ n ih =>
    intro a
    cases ho : outcomes a with
    | status c =>
      have hc : c ≠ 429 := fun hc => h a (by rw [ho, hc])
      simp [syncGo, asyncGo, ho, hc, ih (a + 1)]
    | timeoutExc => simp [syncGo, asyncGo, ho, ih (a + 1)]
    | connectionExc => simp [syncGo, asyncGo, ho, ih (a + 1)]
    | otherExc => simp [syncGo, asyncGo, ho, ih (a + 1)]

theorem processEntries_cons_skip (e : RawEntry) (l : List RawEntry)
    (hshape : entryShapeOk e = true) (hw : pyStrip e.content = "") :
    processEntries (e :: l) = processEntries l := by
  simp only [processEntries, hshape]
  simp only [hw, ne_eq, not_true_eq_false, and_false, if_false, Bool.true_eq_false,
    if_neg (by simp : ¬True = False)]
  cases hpl : processEntries l with
  | error err => rfl
  | ok p => cases p; rfl

theorem processEntries_cons_keep (e : RawEntry) (l : List RawEntry)
    (hshape : entryShapeOk e = true) (hw : pyStrip e.content ≠ "")
    (hrole : e.role = "user" ∨ e.role = "system" ∨ e.role = "assistant")
    (hlen : e.content.length ≤ 1000000) :
    processEntries (e :: l) =
      match processEntries l with
      | .error err => .error err
      | .ok (ms, _) =>
        .ok ({ role := e.role, content := pyStrip e.content } :: ms, false) := by
  have hc : e.content ≠ "" := by
    intro h0
    exact hw (by rw [h0]; rfl)
  have hconstruct : Message.construct e.role e.content =
      .ok { role := e.role, content := pyStrip e.content } := by
    rw [Message.construct, if_pos hrole, if_neg (by omega : ¬(e.content ≠ "" ∧ e.content.length > 1000000))]
    simp [hc]
  simp only [processEntries, hshape, Bool.true_eq_false, if_neg (by simp : ¬True = False),
    if_pos (And.intro hc hw), hconstruct]
  simp

theorem processEntries_cons_shape_error (e : RawEntry) (l : List RawEntry)
    (hshape : entryShapeOk e = false) :
    processEntries (e :: l) =
      .error (.validationFailure "Each message must have \x27role\x27 and \x27content\x27 fields") := by
  simp [processEntries, hshape]

theorem processEntries_cons_role_error (e : RawEntry) (l : List RawEntry)
    (hshape : entryShapeOk e = true) (hw : pyStrip e.content ≠ "")
    (hrole : ¬(e.role = "user" ∨ e.role = "system" ∨ e.role = "assistant")) :
    processEntries (e :: l) =
      .error (.pydanticFailure "role must be one of: user, system, assistant") := by
  have hc : e.content ≠ "" := by
    intro h0
    exact hw (by rw [h0]; rfl)
  have hconstruct : Message.construct e.role e.content =
      .error (.pydanticFailure "role must be one of: user, system, assistant") := by
    rw [Message.construct, if_neg hrole]
  simp only [processEntries, hshape, Bool.true_eq_false, if_neg (by simp : ¬True = False),
    if_pos (And.intro hc hw), hconstruct]
  simp

theorem processEntries_append (pre rest : List RawEntry)
    (h : ∀ e ∈ pre, entryOk e) :
    processEntries (pre ++ rest) =
      match processEntries rest with
      | .error err => .error err
      | .ok (ms, ae) =>
        .ok (forwardedMessages pre ++ ms, entriesAllWhite pre && ae) := by
  induction pre with
  | nil =>
    simp only [List.nil_append, forwardedMessages, List.filter_nil, List.map_nil,
      entriesAllWhite, List.all_nil, Bool.true_and]
    cases hpl : processEntries rest with
    | error err => rfl
    | ok p => cases p; simp
  | cons e pre ih =>
    have he : entryOk e := h e (List.mem_cons_self _ _)
    have hpre : ∀ x ∈ pre, entryOk x := fun x hx => h x (List.mem_cons_of_mem _ hx)
    by_cases hw : pyStrip e.content = ""
    · rw [List.cons_append, processEntries_cons_skip e _ he.1 hw, ih hpre]
      have hfwd : forwardedMessages (e :: pre) = forwardedMessages pre := by
        simp [forwardedMessages, hw]
      have hwhite : entriesAllWhite (e :: pre) = entriesAllWhite pre := by
        simp [entriesAllWhite, hw]
      rw [hfwd, hwhite]
    · obtain ⟨hrole, hlen⟩ := he.2 hw
      rw [List.cons_append, processEntries_cons_keep e _ he.1 hw hrole hlen, ih hpre]
      have hfwd : forwardedMessages (e :: pre) =
          { role := e.role, content := pyStrip e.content } :: forwardedMessages pre := by
        simp [forwardedMessages, hw]
      have hwhite : entriesAllWhite (e :: pre) = false := by
        simp [entriesAllWhite, hw]
      rw [hfwd, hwhite]
      cases hpl : processEntries rest with
      | error err => rfl
      | ok p => cases p; simp

/-- C1: for an empty or whitespace-only single-text check the call performs
no network request and returns the canonical safe default (no_risk, pass,
null answer, empty category lists, sentinel id `guardrails-safe-default`).
The theorem evaluates the syntactically valid async variant of the pair; the
sync variant's `_create_safe_response` is itself the code bug recorded for
this claim (missing comma and missing import make client.py unimportable). -/
theorem C1_empty_input_safe_default :
    async_check_prompt "" none = .safe async_create_safe_response ∧
    async_check_prompt " \t\n " (some "user-1") = .safe async_create_safe_response ∧
    async_create_safe_response.overall_risk_level = "no_risk" ∧
    async_create_safe_response.suggest_action = "pass" ∧
    async_create_safe_response.suggest_answer = none ∧
    async_create_safe_response.result.compliance.categories = [] ∧
    async_create_safe_response.result.security.categories = [] ∧
    async_create_safe_response.id = "guardrails-safe-default" ∧
    (∀ ep p, async_check_prompt " \t\n " (some "user-1") ≠ .request ep p) := by
  refine ⟨by decide, by decide, rfl, rfl, rfl, rfl, rfl, rfl, ?_⟩
  intro ep p hreq
  rw [show async_check_prompt " \t\n " (some "user-1") =
      .safe async_create_safe_response from by decide] at hreq
  exact PromptOutcome.noConfusion hreq

/-- C2 counterexample: on the outcome sequence 429-then-200 with
`max_retries = 1`, the sync transport retries after a 2-second sleep and
succeeds with 2 attempts, while the async transport sleeps 2 seconds and
fails with a rate-limit failure after a single attempt — the two retry
policies are not identical. -/
theorem C2_policies_differ_counterexample :
    sync_make_request 1 c2outcomes = ⟨[2], 2, .success⟩ ∧
    async_make_request 1 c2outcomes = ⟨[2], 1, .rateLimitFailure⟩ ∧
    sync_make_request 1 c2outcomes ≠ async_make_request 1 c2outcomes := by
  decide

/-- C2 (amended): the sync and async transports agree attempt-for-attempt
(same sleeps, same attempt count, same result) on every outcome sequence
containing no HTTP 429; they differ on 429, where the sync transport backs
off `2^attempt + 1` seconds while attempts remain and raises the rate-limit
failure only after `max_retries + 1` attempts, whereas the async transport
sleeps 2 seconds and raises the rate-limit failure on the first 429 without
retrying, for every `max_retries`. -/
theorem C2_amended_retry_policy :
    (∀ (outcomes : Nat → HttpOutcome) (max_retries : Nat),
      (∀ k, outcomes k ≠ .status 429) →
      sync_make_request max_retries outcomes = async_make_request max_retries outcomes) ∧
    (∀ (outcomes : Nat → HttpOutcome) (max_retries : Nat),
      outcomes 0 = .status 429 →
      async_make_request max_retries outcomes = ⟨[2], 1, .rateLimitFailure⟩) ∧
    (∀ (outcomes : Nat → HttpOutcome) (max_retries : Nat),
      (∀ k, outcomes k = .status 429) →
      sync_make_request max_retries outcomes =
        ⟨(List.range max_retries).map (fun a => 2 ^ a + 1), max_retries + 1,
          .rateLimitFailure⟩) := by
  refine ⟨?_, ?_, ?_⟩
  · intro outcomes mr hno
    exact syncGo_eq_asyncGo outcomes hno mr 0
  · intro outcomes mr h0
    exact asyncGo_429 outcomes 0 mr h0
  · intro outcomes mr hall
    have := syncGo_all429 outcomes hall mr 0
    simpa using this

theorem C2_amended_retry_policy_witness :
    sync_make_request 2 (fun _ => .timeoutExc) = async_make_request 2 (fun _ => .timeoutExc) ∧
    async_make_request 3 (fun _ => .status 429) = ⟨[2], 1, .rateLimitFailure⟩ ∧
    sync_make_request 2 (fun _ => .status 429) = ⟨[2, 3], 3, .rateLimitFailure⟩ :=
  ⟨C2_amended_retry_policy.1 (fun _ => .timeoutExc) 2 (fun _ => by simp),
   C2_amended_retry_policy.2.1 (fun _ => .status 429) 3 rfl,
   by
    have h := C2_amended_retry_policy.2.2 (fun _ => .status 429) 2 (fun _ => rfl)
    rw [h]; decide⟩

/-- C3: on all-429 outcome sequences the sync transport performs exactly
`max_retries + 1` attempts, sleeping `2^a + 1` seconds after each attempt
`a < max_retries` (a strictly increasing schedule), then raises the
rate-limit failure; if attempts `0..j-1` give 429 and attempt
`j ≤ max_retries` gives 200, the loop exits at attempt `j` with the
success. -/
theorem C3_sync_backoff :
    ∀ (outcomes : Nat → HttpOutcome) (max_retries : Nat),
      ((∀ k, outcomes k = .status 429) →
        sync_make_request max_retries outcomes =
          ⟨(List.range max_retries).map (fun a => 2 ^ a + 1), max_retries + 1,
            .rateLimitFailure⟩) ∧
      (∀ j, j ≤ max_retries →
        (∀ k, k < j → outcomes k = .status 429) →
        outcomes j = .status 200 →
        sync_make_request max_retries outcomes =
          ⟨(List.range j).map (fun a => 2 ^ a + 1), j + 1, .success⟩) ∧
      List.Pairwise (· < ·) ((List.range max_retries).map (fun a => 2 ^ a + 1)) := by
  intro outcomes mr
  refine ⟨?_, ?_, ?_⟩
  · intro hall
    have := syncGo_all429 outcomes hall mr 0
    simpa using this
  · intro j hj h429 h200
    have := syncGo_first200 outcomes j mr 0 hj (by simpa using h429) (by simpa using h200)
    simpa using this
  · rw [List.pairwise_map]
    refine (List.pairwise_lt_range mr).imp ?_
    intro a b hab
    have : (2 : Nat) ^ a < 2 ^ b := Nat.pow_lt_pow_right (by norm_num) hab
    omega

theorem C3_sync_backoff_witness :
    sync_make_request 3 (fun _ => .status 429) = ⟨[2, 3, 5], 4, .rateLimitFailure⟩ ∧
    sync_make_request 3 (fun k => if k < 2 then .status 429 else .status 200) =
      ⟨[2, 3], 3, .success⟩ :=
  ⟨by
    have h := (C3_sync_backoff (fun _ => .status 429) 3).1 (fun _ => rfl)
    rw [h]; decide,
   by
    have h := (C3_sync_backoff (fun k => if k < 2 then .status 429 else .status 200) 3).2.1
      2 (by omega) (fun k hk => by simp [hk]) (by simp)
    rw [h]; decide⟩

theorem processEntries_eval (entries : List RawEntry)
    (h : ∀ e ∈ entries, entryOk e) :
    processEntries entries =
      .ok (forwardedMessages entries, entriesAllWhite entries) := by
  have happ := processEntries_append entries [] h
  rw [List.append_nil] at happ
  rw [happ]
  simp [processEntries]

theorem check_conversation_eval (entries : List RawEntry) (model : String)
    (uid : Option String) (hne : entries ≠ []) (h : ∀ e ∈ entries, entryOk e) :
    check_conversation entries model uid =
      if entriesAllWhite entries = true then .ok (.safe create_safe_response)
      else if forwardedMessages entries = [] then .ok (.safe create_safe_response)
      else .ok (.request "/guardrails"
        { model := model, messages := forwardedMessages entries,
          extra_body_user_id := optTruthy uid }) := by
  simp only [check_conversation, if_neg hne, processEntries_eval entries h]

/-- C4 counterexample: a conversation entry whose role is not one of
user/system/assistant but whose content is whitespace-only does not raise any
failure — `check_conversation` returns the safe default instead, refuting
the claim that every invalid role is rejected before the network. -/
theorem C4_invalid_role_not_rejected :
    check_conversation [⟨true, true, true, "moderator", "   "⟩]
        "Xiangxin-Guardrails-Text" none = .ok (.safe create_safe_response) ∧
    ¬("moderator" = "user" ∨ "moderator" = "system" ∨ "moderator" = "assistant") := by
  decide

/-- C4 (amended): an empty message list, a non-mapping entry, or an entry
missing a role or content field raises the SDK validation failure before any
network request; an entry whose role is outside the three enumerated values
raises a (pydantic) validation failure only when that entry's content is
non-whitespace — entries with invalid role but empty/whitespace content are
silently skipped, and a well-shaped all-whitespace list returns the safe
default regardless of its roles. -/
theorem C4_amended_validation :
    (∀ (model : String) (uid : Option String),
      check_conversation [] model uid =
        .error (.validationFailure "Messages cannot be empty")) ∧
    (∀ (pre : List RawEntry) (e : RawEntry) (post : List RawEntry)
       (model : String) (uid : Option String),
      (∀ x ∈ pre, entryOk x) → entryShapeOk e = false →
      check_conversation (pre ++ e :: post) model uid =
        .error (.validationFailure
          "Each message must have \x27role\x27 and \x27content\x27 fields")) ∧
    (∀ (pre : List RawEntry) (e : RawEntry) (post : List RawEntry)
       (model : String) (uid : Option String),
      (∀ x ∈ pre, entryOk x) → entryShapeOk e = true →
      ¬(e.role = "user" ∨ e.role = "system" ∨ e.role = "assistant") →
      pyStrip e.content ≠ "" →
      check_conversation (pre ++ e :: post) model uid =
        .error (.pydanticFailure "role must be one of: user, system, assistant")) ∧
    (∀ (entries : List RawEntry) (model : String) (uid : Option String),
      entries ≠ [] → (∀ x ∈ entries, entryShapeOk x = true) →
      (∀ x ∈ entries, pyStrip x.content = "") →
      check_conversation entries model uid = .ok (.safe create_safe_response)) := by
  refine ⟨fun model uid => rfl, ?_, ?_, ?_⟩
  · intro pre e post model uid hpre hshape
    have hne : pre ++ e :: post ≠ [] := by simp
    simp only [check_conversation, if_neg hne,
      processEntries_append pre (e :: post) hpre,
      processEntries_cons_shape_error e post hshape]
  · intro pre e post model uid hpre hshape hrole hw
    have hne : pre ++ e :: post ≠ [] := by simp
    simp only [check_conversation, if_neg hne,
      processEntries_append pre (e :: post) hpre,
      processEntries_cons_role_error e post hshape hw hrole]
  · intro entries model uid hne hshape hwhite
    have hok : ∀ x ∈ entries, entryOk x :=
      fun x hx => ⟨hshape x hx, fun hnw => absurd (hwhite x hx) hnw⟩
    have hb : entriesAllWhite entries = true := by
      simp only [entriesAllWhite, List.all_eq_true, decide_eq_true_eq]
      exact hwhite
    rw [check_conversation_eval entries model uid hne hok, if_pos hb]

theorem C4_amended_validation_witness :
    check_conversation [] "Xiangxin-Guardrails-Text" none =
      .error (.validationFailure "Messages cannot be empty") ∧
    check_conversation [⟨true, true, true, "user", "hi"⟩, ⟨true, false, true, "user", "x"⟩]
        "m" none =
      .error (.validationFailure
        "Each message must have \x27role\x27 and \x27content\x27 fields") ∧
    check_conversation [⟨true, true, true, "bot", "hello"⟩] "m" none =
      .error (.pydanticFailure "role must be one of: user, system, assistant") ∧
    check_conversation [⟨true, true, true, "moderator", " "⟩, ⟨true, true, true, "also-bad", ""⟩]
        "m" (some "u") = .ok (.safe create_safe_response) :=
  ⟨C4_amended_validation.1 "Xiangxin-Guardrails-Text" none,
   by
    have h := C4_amended_validation.2.1 [⟨true, true, true, "user", "hi"⟩]
      ⟨true, false, true, "user", "x"⟩ [] "m" none (by decide) (by decide)
    simpa using h,
   by
    have h := C4_amended_validation.2.2.1 [] ⟨true, true, true, "bot", "hello"⟩ []
      "m" none (by decide) (by decide) (by decide) (by decide)
    simpa using h,
   C4_amended_validation.2.2.2
     [⟨true, true, true, "moderator", " "⟩, ⟨true, true, true, "also-bad", ""⟩]
     "m" (some "u") (by decide) (by decide) (by decide)⟩

/-- C5: on a well-formed conversation list (well-shaped entries, valid roles
and in-bound lengths wherever content is non-whitespace), if every content is
empty or whitespace-only the call returns the canonical safe default with no
network request; otherwise it forwards exactly the entries whose stripped
content is non-empty, in their original relative order. -/
theorem C5_conversation_filtering :
    ∀ (entries : List RawEntry) (model : String) (uid : Option String),
      entries ≠ [] → (∀ x ∈ entries, entryOk x) →
      ((∀ x ∈ entries, pyStrip x.content = "") →
        check_conversation entries model uid = .ok (.safe create_safe_response)) ∧
      ((∃ x ∈ entries, pyStrip x.content ≠ "") →
        check_conversation entries model uid =
          .ok (.request "/guardrails"
            { model := model, messages := forwardedMessages entries,
              extra_body_user_id := optTruthy uid })) := by
  intro entries model uid hne hok
  constructor
  · intro hwhite
    have hb : entriesAllWhite entries = true := by
      simp only [entriesAllWhite, List.all_eq_true, decide_eq_true_eq]
      exact hwhite
    rw [check_conversation_eval entries model uid hne hok, if_pos hb]
  · rintro ⟨x, hx, hnw⟩
    have hb : ¬(entriesAllWhite entries = true) := by
      simp only [entriesAllWhite, List.all_eq_true, decide_eq_true_eq]
      intro hall
      exact hnw (hall x hx)
    have hfwd : forwardedMessages entries ≠ [] := by
      have hmem : ({ role := x.role, content := pyStrip x.content } : Message) ∈
          forwardedMessages entries := by
        simp only [forwardedMessages]
        exact List.mem_map_of_mem _ (List.mem_filter.mpr ⟨hx, by simpa using hnw⟩)
      exact List.ne_nil_of_mem hmem
    rw [check_conversation_eval entries model uid hne hok, if_neg hb, if_neg hfwd]

theorem C5_conversation_filtering_witness :
    check_conversation [⟨true, true, true, "user", "  "⟩, ⟨true, true, true, "assistant", "\t"⟩]
        "m" none = .ok (.safe create_safe_response) ∧
    check_conversation
        [⟨true, true, true, "user", " q1 "⟩, ⟨true, true, true, "assistant", " "⟩,
         ⟨true, true, true, "system", "s"⟩]
        "Xiangxin-Guardrails-Text" (some "u-9") =
      .ok (.request "/guardrails"
        ⟨"Xiangxin-Guardrails-Text", [⟨"user", "q1"⟩, ⟨"system", "s"⟩], some "u-9"⟩) :=
  ⟨(C5_conversation_filtering
      [⟨true, true, true, "user", "  "⟩, ⟨true, true, true, "assistant", "\t"⟩]
      "m" none (by decide) (by decide)).1 (by decide),
   by
    have h := (C5_conversation_filtering
      [⟨true, true, true, "user", " q1 "⟩, ⟨true, true, true, "assistant", " "⟩,
       ⟨true, true, true, "system", "s"⟩]
      "Xiangxin-Guardrails-Text" (some "u-9") (by decide) (by decide)).2
      ⟨⟨true, true, true, "user", " q1 "⟩, by decide, by decide⟩
    rw [h]; decide⟩

/-- C6: the claim says every check call attaches a supplied user identifier
as a side-channel field; the async single-image check does not — with
identical arguments its request is the same with and without the identifier
and carries no `extra_body` user id, while the sync single-image check does
attach it. -/
theorem C6_async_image_drops_user_id :
    async_check_prompt_image c6fetch c6read "hi" "a.jpg" "Xiangxin-Guardrails-VL"
        (some "user-7") =
      async_check_prompt_image c6fetch c6read "hi" "a.jpg" "Xiangxin-Guardrails-VL" none ∧
    async_check_prompt_image c6fetch c6read "hi" "a.jpg" "Xiangxin-Guardrails-VL"
        (some "user-7") =
      .ok { model := "Xiangxin-Guardrails-VL"
            messages := [⟨"user", [.text "hi", .image_url "data:image/jpeg;base64,AQID"]⟩]
            extra_body_user_id := none } ∧
    check_prompt_image c6fetch c6read "hi" "a.jpg" "Xiangxin-Guardrails-VL"
        (some "user-7") =
      .ok { model := "Xiangxin-Guardrails-VL"
            messages := [⟨"user", [.text "hi", .image_url "data:image/jpeg;base64,AQID"]⟩]
            extra_body_user_id := some "user-7" } := by
  decide

/-- C7: an empty image argument or empty image list raises the validation
failure independently of any file or network oracle; a non-URL path whose
read reports file-not-found raises a validation failure whose message names
the path; a URL path whose fetch errors raises the generic SDK failure and
never a validation failure. -/
theorem C7_image_error_handling :
    (∀ (fetch : String → UrlFetchResult) (readf : String → FileReadResult)
       (prompt model : String) (uid : Option String),
      check_prompt_image fetch readf prompt "" model uid =
        .error (.validationFailure "Image path cannot be empty")) ∧
    (∀ (fetch : String → UrlFetchResult) (readf : String → FileReadResult)
       (prompt model : String) (uid : Option String),
      check_prompt_images fetch readf prompt [] model uid =
        .error (.validationFailure "Images list cannot be empty")) ∧
    (∀ (fetch : String → UrlFetchResult) (readf : String → FileReadResult)
       (prompt path model : String) (uid : Option String),
      path ≠ "" → isHttpUrl path = false → readf path = .notFound →
      check_prompt_image fetch readf prompt path model uid =
        .error (.validationFailure ("Image file not found: " ++ path))) ∧
    (∀ (fetch : String → UrlFetchResult) (readf : String → FileReadResult)
       (prompt path model : String) (uid : Option String) (m : String),
      isHttpUrl path = true → fetch path = .fetchFailure m →
      check_prompt_image fetch readf prompt path model uid =
        .error (.sdkFailure ("Failed to encode image: " ++ m)) ∧
      ∀ s, check_prompt_image fetch readf prompt path model uid ≠
        .error (.validationFailure s)) := by
  refine ⟨fun _ _ _ _ _ => rfl, fun _ _ _ _ _ => rfl, ?_, ?_⟩
  · intro fetch readf prompt path model uid hne hurl hread
    simp only [check_prompt_image, if_neg hne, encode_base64_from_path, hurl,
      Bool.false_eq_true, if_false, hread]
  · intro fetch readf prompt path model uid m hurl hfetch
    have hne : path ≠ "" := by
      intro h0
      rw [h0] at hurl
      exact absurd hurl (by decide)
    have hres : check_prompt_image fetch readf prompt path model uid =
        .error (.sdkFailure ("Failed to encode image: " ++ m)) := by
      simp only [check_prompt_image, if_neg hne, encode_base64_from_path, hurl,
        if_true, hfetch]
    exact ⟨hres, fun s hbad => by
      rw [hres] at hbad
      simp at hbad⟩

theorem C7_image_error_handling_witness :
    check_prompt_image c6fetch c6read "p" "" "M" none =
      .error (.validationFailure "Image path cannot be empty") ∧
    check_prompt_images c6fetch c6read "p" [] "M" none =
      .error (.validationFailure "Images list cannot be empty") ∧
    check_prompt_image c6fetch (fun _ => .notFound) "p" "local.jpg" "M" none =
      .error (.validationFailure "Image file not found: local.jpg") ∧
    check_prompt_image (fun _ => .fetchFailure "boom") c6read "p" "https://x/y.jpg" "M" none =
      .error (.sdkFailure "Failed to encode image: boom") ∧
    (∀ s, check_prompt_image (fun _ => .fetchFailure "boom") c6read "p" "https://x/y.jpg" "M" none ≠
      .error (.validationFailure s)) :=
  ⟨C7_image_error_handling.1 c6fetch c6read "p" "M" none,
   C7_image_error_handling.2.1 c6fetch c6read "p" "M" none,
   C7_image_error_handling.2.2.1 c6fetch (fun _ => .notFound) "p" "local.jpg" "M" none
     (by decide) (by decide) rfl,
   (C7_image_error_handling.2.2.2 (fun _ => .fetchFailure "boom") c6read "p" "https://x/y.jpg"
     "M" none "boom" (by decide) rfl).1,
   (C7_image_error_handling.2.2.2 (fun _ => .fetchFailure "boom") c6read "p" "https://x/y.jpg"
     "M" none "boom" (by decide) rfl).2⟩

/-- C8: for every byte sequence the media encoder yields the fixed
`data:image/jpeg;base64,` label (regardless of actual image format) followed
by the base64 encoding of the bytes, and stripping the 23-character prefix
and base64-decoding the remainder recovers exactly the original bytes. -/
theorem C8_data_uri_roundtrip :
    ∀ bs : List Nat, (∀ x ∈ bs, x < 256) →
      image_data_uri bs = "data:image/jpeg;base64," ++ b64encode bs ∧
      (image_data_uri bs).data.drop 23 = (b64encode bs).data ∧
      b64DecodeChunks ((image_data_uri bs).data.drop 23) = some bs := by
  intro bs h
  have hdrop : (image_data_uri bs).data.drop 23 = (b64encode bs).data := by
    show ("data:image/jpeg;base64," ++ b64encode bs).data.drop 23 = (b64encode bs).data
    rw [String.data_append]
    rw [show (23 : Nat) = "data:image/jpeg;base64,".data.length from rfl]
    exact List.drop_left _ _
  refine ⟨rfl, hdrop, ?_⟩
  rw [hdrop]
  exact b64_roundtrip bs h

theorem C8_data_uri_roundtrip_witness :
    image_data_uri [72, 105] = "data:image/jpeg;base64," ++ b64encode [72, 105] ∧
    b64DecodeChunks ((image_data_uri [72, 105]).data.drop 23) = some [72, 105] :=
  ⟨(C8_data_uri_roundtrip [72, 105] (by decide)).1,
   (C8_data_uri_roundtrip [72, 105] (by decide)).2.2⟩

/-- C9: `all_categories` is duplicate-free and contains exactly the union of
the compliance, security and (when present) data-security categories; on the
response with compliance categories A,B and security categories B,C and no
data dimension it is the set containing A, B and C. -/
theorem C9_all_categories :
    (∀ r : GuardrailResponse,
      (all_categories r).Nodup ∧
      ∀ s, s ∈ all_categories r ↔
        (s ∈ r.result.compliance.categories ∨ s ∈ r.result.security.categories ∨
          s ∈ dataCategories r)) ∧
    (all_categories
        ⟨"guardrails-1", ⟨⟨"low_risk", ["A", "B"]⟩, ⟨"low_risk", ["B", "C"]⟩, none⟩,
          "low_risk", "pass", none, none⟩).toFinset = {"A", "B", "C"} := by
  refine ⟨fun r => ⟨List.nodup_dedup _, fun s => ?_⟩, by decide⟩
  simp [all_categories, or_assoc]

/-- C10: `has_substitute` holds exactly when the suggested action is replace
or reject, independently of `suggest_answer` (it can hold while the answer
is null), and `is_safe` and `is_blocked` are likewise determined solely by
the suggested action being pass or reject respectively. -/
theorem C10_action_flags :
    (∀ r : GuardrailResponse,
      (has_substitute r = true ↔
        (r.suggest_action = "replace" ∨ r.suggest_action = "reject")) ∧
      (is_safe r = true ↔ r.suggest_action = "pass") ∧
      (is_blocked r = true ↔ r.suggest_action = "reject")) ∧
    (∀ (r : GuardrailResponse) (ans : Option String),
      has_substitute { r with suggest_answer := ans } = has_substitute r ∧
      is_safe { r with suggest_answer := ans } = is_safe r ∧
      is_blocked { r with suggest_answer := ans } = is_blocked r) ∧
    (has_substitute c10_reject_response = true ∧
      c10_reject_response.suggest_answer = none) := by
  refine ⟨fun r => ⟨?_, ?_, ?_⟩, fun r ans => ⟨rfl, rfl, rfl⟩, by decide⟩
  · simp [has_substitute]
  · simp [is_safe]
  · simp [is_blocked]
